import Mathlib

/-!
Verification of the StudyBuddy output-formatting pipeline
(`src/utils/helpers.ts`, second revision in the file: `processNonTableText`,
`processOutputText`, `processPdfText`, `htmlToImage`, `downloadAnswerAsPdf`).

Strings are modelled as `List Char`.  Each JavaScript
`String.prototype.replace(regex, ...)` call with a global regex is embedded
as a left-to-right scan (`replScan`) with a hand-written matcher for that
regex: at every position the matcher either yields the replacement text and
the remainder after the match (the scan then continues after the match,
which is exactly the non-overlapping leftmost semantics of a global
replace), or the character is copied.  All scans are fuel-based with fuel
equal to the input length, so every definition is executable and reduces in
the kernel.  The model assumes `"\n"`-only line endings (no `"\r"`,
`" "`, `" "`), which holds for every input considered here.
-/

namespace StudyBuddy

/-- Convert a string literal to the `List Char` representation used
throughout this development. -/
def dstr (s : String) : List Char := s.data

/-- JavaScript `\s` (whitespace class), restricted to the code points that
occur in this development. -/
def jsWs (c : Char) : Bool :=
  c = ' ' || c = '\t' || c = '\n' || c = '\x0d' || c = '\x0b' || c = '\x0c' ||
  c = ' ' || c = '﻿'

/-- JavaScript `.` without the `s` flag: any character except line
terminators. -/
def jsDot (c : Char) : Bool :=
  !(c = '\n' || c = '\x0d' || c = ' ' || c = ' ')

def isDigitC (c : Char) : Bool := '0' ≤ c && c ≤ '9'

def isUpperC (c : Char) : Bool := 'A' ≤ c && c ≤ 'Z'

def isLowerC (c : Char) : Bool := 'a' ≤ c && c ≤ 'z'

/-- `[a-zA-Z0-9]`. -/
def isAlnumC (c : Char) : Bool := isDigitC c || isUpperC c || isLowerC c

/-- JavaScript `\w`: `[A-Za-z0-9_]`. -/
def isWordC (c : Char) : Bool := isAlnumC c || c = '_'

/-- Case folding used for the `i` regex flag (ASCII letters, plus the one
Greek pair that occurs in the physics patterns). -/
def ciFold (c : Char) : Char :=
  if isUpperC c then Char.ofNat (c.toNat + 32)
  else if c = 'Ω' then 'ω'
  else c

/-- Match a literal pattern at the head of the input; on success return the
remainder. -/
def stripPre : List Char → List Char → Option (List Char)
  | [], l => some l
  | _, [] => none
  | p :: ps, c :: cs => if p = c then stripPre ps cs else none

/-- Case-insensitive variant of `stripPre` (for regexes with the `i`
flag). -/
def stripPreCI : List Char → List Char → Option (List Char)
  | [], l => some l
  | _, [] => none
  | p :: ps, c :: cs => if ciFold p = ciFold c then stripPreCI ps cs else none

/-- Greedy `p+`: at least one character satisfying `p`. -/
def takeW1 (p : Char → Bool) : List Char → Option (List Char × List Char)
  | [] => none
  | c :: cs =>
    if p c then
      match cs with
      | [] => some ([c], [])
      | _ =>
        match takeW1 p cs with
        | some (a, r) => some (c :: a, r)
        | none => some ([c], cs)
    else none

/-- Greedy `p*`. -/
def takeW (p : Char → Bool) : List Char → List Char × List Char
  | [] => ([], [])
  | c :: cs =>
    if p c then
      let (a, r) := takeW p cs
      (c :: a, r)
    else ([], c :: cs)

/-- A matcher recognises a regex at the current position: it returns the
replacement text together with the remainder of the input after the matched
span. -/
abbrev Matcher := List Char → Option (List Char × List Char)

/-- Global-replace scan: at each position try the matcher; on a match emit
the replacement and continue after the match, otherwise copy one character.
This is the semantics of `String.replace` with a `g` regex (all the
regexes embedded here match at least one character). -/
def replScan (m : Matcher) : Nat → List Char → List Char
  | 0, l => l
  | _ + 1, [] => []
  | fuel + 1, c :: cs =>
    match m (c :: cs) with
    | some (rep, rest) =>
      if rest.length ≤ cs.length then rep ++ replScan m fuel rest
      else c :: replScan m fuel cs
    | none => c :: replScan m fuel cs

/-- Run one `replace` pass over the whole string. -/
def stage (m : Matcher) (l : List Char) : List Char := replScan m l.length l

/-- Lazy scan `(X*?)stop`: the shortest run of characters satisfying `ok`
followed by the literal `stop`; returns the run and the remainder after
`stop`. -/
def scanUntil (stop : List Char) (ok : Char → Bool) : Nat → List Char →
    Option (List Char × List Char)
  | 0, _ => none
  | fuel + 1, l =>
    match stripPre stop l with
    | some rest => some ([], rest)
    | none =>
      match l with
      | [] => none
      | c :: cs =>
        if ok c then
          match scanUntil stop ok fuel cs with
          | some (a, r) => some (c :: a, r)
          | none => none
        else none

/-- Matcher for a literal pattern with a fixed replacement. -/
def litM (pat rep : List Char) : Matcher := fun l =>
  match stripPre pat l with
  | some rest => some (rep, rest)
  | none => none

/-- JavaScript `String.prototype.trim`. -/
def jsTrim (l : List Char) : List Char :=
  ((l.dropWhile jsWs).reverse.dropWhile jsWs).reverse

/-! ## The `processNonTableText` substitution chain

One matcher per `replace` call, in source order. -/

/-- `/\*\*(.*?)\*\*/g` → `<strong>$1</strong>` -/
def boldM : Matcher := fun l =>
  match stripPre (dstr "**") l with
  | some r =>
    match scanUntil (dstr "**") jsDot r.length r with
    | some (content, rest) =>
      some (dstr "<strong>" ++ content ++ dstr "</strong>", rest)
    | none => none
  | none => none

/-- `/\*(.*?)\*/g` → `<em>$1</em>` -/
def italicM : Matcher := fun l =>
  match stripPre (dstr "*") l with
  | some r =>
    match scanUntil (dstr "*") jsDot r.length r with
    | some (content, rest) => some (dstr "<em>" ++ content ++ dstr "</em>", rest)
    | none => none
  | none => none

/-- `/\$\$(.*?)\$\$/g` → `<div class="math-equation block">$1</div>` -/
def blockMathM : Matcher := fun l =>
  match stripPre (dstr "$$") l with
  | some r =>
    match scanUntil (dstr "$$") jsDot r.length r with
    | some (content, rest) =>
      some (dstr "<div class=\"math-equation block\">" ++ content ++ dstr "</div>", rest)
    | none => none
  | none => none

/-- `/\$(.*?)\$/g` → `<span class="math-equation">$1</span>` -/
def inlineMathM : Matcher := fun l =>
  match stripPre (dstr "$") l with
  | some r =>
    match scanUntil (dstr "$") jsDot r.length r with
    | some (content, rest) =>
      some (dstr "<span class=\"math-equation\">" ++ content ++ dstr "</span>", rest)
    | none => none
  | none => none

/-- `/\\sqrt\{([^}]+)\}/g` → `<span class="math-equation">√($1)</span>` -/
def sqrtM : Matcher := fun l =>
  match stripPre (dstr "\\sqrt\x7b") l with
  | some r =>
    match takeW1 (fun c => c ≠ '\x7d') r with
    | some (content, r2) =>
      match r2 with
      | '\x7d' :: rest =>
        some (dstr "<span class=\"math-equation\">√(" ++ content ++ dstr ")</span>", rest)
      | _ => none
    | none => none
  | none => none

/-- `/\\frac\{([^}]+)\}\{([^}]+)\}/g` → stacked fraction markup -/
def fracM : Matcher := fun l =>
  match stripPre (dstr "\\frac\x7b") l with
  | some r =>
    match takeW1 (fun c => c ≠ '\x7d') r with
    | some (a, r2) =>
      match stripPre (dstr "\x7d\x7b") r2 with
      | some r3 =>
        match takeW1 (fun c => c ≠ '\x7d') r3 with
        | some (b, r4) =>
          match r4 with
          | '\x7d' :: rest =>
            some (dstr "<span class=\"math-equation\"><span style=\"display: inline-block; text-align: center;\"><span style=\"display: block; border-bottom: 1px solid currentColor;\"" ++
              dstr ">" ++ a ++
              dstr "</span><span style=\"display: block;\">" ++ b ++
              dstr "</span></span></span>", rest)
          | _ => none
        | none => none
      | none => none
    | none => none
  | none => none

/-- `/\\sum_\{([^}]+)\}\^\{([^}]+)\}/g` (and `\prod`, `\int` variants):
bounded big-operator markup. -/
def boundedOpM (op : String) (sym : String) : Matcher := fun l =>
  match stripPre (dstr (op ++ "_\x7b")) l with
  | some r =>
    match takeW1 (fun c => c ≠ '\x7d') r with
    | some (lo, r2) =>
      match stripPre (dstr "\x7d^\x7b") r2 with
      | some r3 =>
        match takeW1 (fun c => c ≠ '\x7d') r3 with
        | some (hi, r4) =>
          match r4 with
          | '\x7d' :: rest =>
            some (dstr ("<span class=\"math-equation\">" ++ sym ++
                "<span style=\"display: inline-block; vertical-align: -0.5em; line-height: 1.0; font-size: 0.8em; text-align: center;\"><sup>") ++
              hi ++ dstr "</sup><sub>" ++ lo ++ dstr "</sub></span></span>", rest)
          | _ => none
        | none => none
      | none => none
    | none => none
  | none => none

/-- A literal LaTeX macro replaced by a math-equation span. -/
def litSpanM (pat sym : String) : Matcher :=
  litM (dstr pat) (dstr ("<span class=\"math-equation\">" ++ sym ++ "</span>"))

/-- `/([a-zA-Z0-9])\^([a-zA-Z0-9])/g` → `$1<sup>$2</sup>` span. -/
def supANM : Matcher := fun l =>
  match l with
  | a :: '^' :: b :: rest =>
    if isAlnumC a && isAlnumC b then
      some (dstr "<span class=\"math-equation\">" ++ [a] ++ dstr "<sup>" ++ [b] ++
        dstr "</sup></span>", rest)
    else none
  | _ => none

/-- `/([a-zA-Z0-9])\^\{([^}]+)\}/g` → `$1<sup>$2</sup>` span. -/
def supBrM : Matcher := fun l =>
  match l with
  | a :: '^' :: '\x7b' :: r =>
    if isAlnumC a then
      match takeW1 (fun c => c ≠ '\x7d') r with
      | some (content, r2) =>
        match r2 with
        | '\x7d' :: rest =>
          some (dstr "<span class=\"math-equation\">" ++ [a] ++ dstr "<sup>" ++ content ++
            dstr "</sup></span>", rest)
        | _ => none
      | none => none
    else none
  | _ => none

/-- `/([a-zA-Z0-9])_([a-zA-Z0-9])/g` → `$1<sub>$2</sub>` span. -/
def subANM : Matcher := fun l =>
  match l with
  | a :: '_' :: b :: rest =>
    if isAlnumC a && isAlnumC b then
      some (dstr "<span class=\"math-equation\">" ++ [a] ++ dstr "<sub>" ++ [b] ++
        dstr "</sub></span>", rest)
    else none
  | _ => none

/-- `/([a-zA-Z0-9])_\{([^}]+)\}/g` → `$1<sub>$2</sub>` span. -/
def subBrM : Matcher := fun l =>
  match l with
  | a :: '_' :: '\x7b' :: r =>
    if isAlnumC a then
      match takeW1 (fun c => c ≠ '\x7d') r with
      | some (content, r2) =>
        match r2 with
        | '\x7d' :: rest =>
          some (dstr "<span class=\"math-equation\">" ++ [a] ++ dstr "<sub>" ++ content ++
            dstr "</sub></span>", rest)
        | _ => none
      | none => none
    else none
  | _ => none

/-- `/(\d+) square root/gi` → `√$1` span. -/
def nSqrtM : Matcher := fun l =>
  match takeW1 isDigitC l with
  | some (ds, r) =>
    match stripPreCI (dstr " square root") r with
    | some rest => some (dstr "<span class=\"math-equation\">√" ++ ds ++ dstr "</span>", rest)
    | none => none
  | none => none

/-- `/square root of (\d+)/gi` → `√$1` span. -/
def sqrtOfM : Matcher := fun l =>
  match stripPreCI (dstr "square root of ") l with
  | some r =>
    match takeW1 isDigitC r with
    | some (ds, rest) =>
      some (dstr "<span class=\"math-equation\">√" ++ ds ++ dstr "</span>", rest)
    | none => none
  | none => none

/-- `/cubic root of (\d+)/gi` → `∛$1` span. -/
def cbrtOfM : Matcher := fun l =>
  match stripPreCI (dstr "cubic root of ") l with
  | some r =>
    match takeW1 isDigitC r with
    | some (ds, rest) =>
      some (dstr "<span class=\"math-equation\">∛" ++ ds ++ dstr "</span>", rest)
    | none => none
  | none => none

/-- `/(\w+) squared/gi` → `$1<sup>2</sup>` span. -/
def squaredM : Matcher := fun l =>
  match takeW1 isWordC l with
  | some (w, r) =>
    match stripPreCI (dstr " squared") r with
    | some rest =>
      some (dstr "<span class=\"math-equation\">" ++ w ++ dstr "<sup>2</sup></span>", rest)
    | none => none
  | none => none

/-- `/(\w+) cubed/gi` → `$1<sup>3</sup>` span. -/
def cubedM : Matcher := fun l =>
  match takeW1 isWordC l with
  | some (w, r) =>
    match stripPreCI (dstr " cubed") r with
    | some rest =>
      some (dstr "<span class=\"math-equation\">" ++ w ++ dstr "<sup>3</sup></span>", rest)
    | none => none
  | none => none

/-- `/\|([^|]+)\|/g` → `|$1|` span (absolute value). -/
def absM : Matcher := fun l =>
  match l with
  | '|' :: r =>
    match takeW1 (fun c => c ≠ '|') r with
    | some (content, r2) =>
      match r2 with
      | '|' :: rest =>
        some (dstr "<span class=\"math-equation\">|" ++ content ++ dstr "|</span>", rest)
      | _ => none
    | none => none
  | _ => none

/-- `/([A-Z][a-z]*)(\d+)/g` → element with subscript. -/
def chemSubM : Matcher := fun l =>
  match l with
  | e :: r1 =>
    if isUpperC e then
      let (low, r2) := takeW isLowerC r1
      match takeW1 isDigitC r2 with
      | some (ds, rest) =>
        some (dstr "<span class=\"chemical-formula\">" ++ (e :: low) ++ dstr "<sub>" ++ ds ++
          dstr "</sub></span>", rest)
      | none => none
    else none
  | _ => none

/-- Shared tail of the two isotope alternatives: `(\d+)([A-Z][a-z]*)`. -/
def isoCore (pre : List Char) : Option (List Char × List Char) :=
  match takeW1 isDigitC pre with
  | some (ds, r2) =>
    match r2 with
    | e :: r3 =>
      if isUpperC e then
        let (low, r4) := takeW isLowerC r3
        some (dstr "<span class=\"chemical-formula\"><sup>" ++ ds ++ dstr "</sup>" ++
          (e :: low) ++ dstr "</span>", r4)
      else none
    | [] => none
  | none => none

/-- `/(\^|\^{)(\d+)([A-Z][a-z]*)/g` → isotope superscript (the `^` or `^{`
prefix is dropped by the replacement). -/
def isotopeM : Matcher := fun l =>
  match l with
  | '^' :: r1 =>
    match isoCore r1 with
    | some x => some x
    | none =>
      match r1 with
      | '\x7b' :: r2 => isoCore r2
      | _ => none
  | _ => none

/-- `/([A-Z][a-z]*)(\d*)([+\-])/g` → ion with charge superscript. -/
def ionM : Matcher := fun l =>
  match l with
  | e :: r1 =>
    if isUpperC e then
      let (low, r2) := takeW isLowerC r1
      let (ds, r3) := takeW isDigitC r2
      match r3 with
      | c :: rest =>
        if c = '+' || c = '-' then
          some (dstr "<span class=\"chemical-formula\">" ++ (e :: low) ++ dstr "<sup>" ++
            (if ds.isEmpty then dstr "1" else ds) ++
            (if c = '+' then dstr "⁺" else dstr "⁻") ++ dstr "</sup></span>", rest)
        else none
      | [] => none
    else none
  | _ => none

/-- `/\(([gls]|aq)\)/g` → state-symbol subscript. -/
def stateM : Matcher := fun l =>
  match l with
  | '(' :: c :: ')' :: rest =>
    if c = 'g' || c = 'l' || c = 's' then
      some (dstr "<span class=\"chemical-formula\"><sub>(" ++ [c] ++ dstr ")</sub></span>", rest)
    else none
  | '(' :: 'a' :: 'q' :: ')' :: rest =>
    some (dstr "<span class=\"chemical-formula\"><sub>(aq)</sub></span>", rest)
  | _ => none

/-- Try literal alternatives in order (regex alternation), optionally
case-insensitively. -/
def firstAlt (alts : List (List Char)) (ci : Bool) (l : List Char) : Option (List Char) :=
  match alts with
  | [] => none
  | a :: as =>
    match (if ci then stripPreCI a l else stripPre a l) with
    | some r => some r
    | none => firstAlt as ci l

/-- `/(\d+)\s*(U|u-alternatives)/g[i]` → `$1 <span class="physics-unit">U</span>`. -/
def unitM (alts : List String) (ci : Bool) (disp : String) : Matcher := fun l =>
  match takeW1 isDigitC l with
  | some (ds, r1) =>
    let (_, r2) := takeW jsWs r1
    match firstAlt (alts.map dstr) ci r2 with
    | some rest =>
      some (ds ++ dstr (" <span class=\"physics-unit\">" ++ disp ++ "</span>"), rest)
    | none => none
  | none => none

/-- `/E\s*=\s*mc\^?2/g` → physics-equation span. -/
def eMc2M : Matcher := fun l =>
  match l with
  | 'E' :: r1 =>
    let (_, r2) := takeW jsWs r1
    match r2 with
    | '=' :: r3 =>
      let (_, r4) := takeW jsWs r3
      match r4 with
      | 'm' :: 'c' :: '^' :: '2' :: rest =>
        some (dstr "<span class=\"physics-equation\">E = mc<sup>2</sup></span>", rest)
      | 'm' :: 'c' :: '2' :: rest =>
        some (dstr "<span class=\"physics-equation\">E = mc<sup>2</sup></span>", rest)
      | _ => none
    | _ => none
  | _ => none

/-- `/F\s*=\s*ma/g` → physics-equation span. -/
def fMaM : Matcher := fun l =>
  match l with
  | 'F' :: r1 =>
    let (_, r2) := takeW jsWs r1
    match r2 with
    | '=' :: r3 =>
      let (_, r4) := takeW jsWs r3
      match r4 with
      | 'm' :: 'a' :: rest =>
        some (dstr "<span class=\"physics-equation\">F = ma</span>", rest)
      | _ => none
    | _ => none
  | _ => none

/-- `/PV\s*=\s*nRT/g` → physics-equation span. -/
def pvNrtM : Matcher := fun l =>
  match l with
  | 'P' :: 'V' :: r1 =>
    let (_, r2) := takeW jsWs r1
    match r2 with
    | '=' :: r3 =>
      let (_, r4) := takeW jsWs r3
      match r4 with
      | 'n' :: 'R' :: 'T' :: rest =>
        some (dstr "<span class=\"physics-equation\">PV = nRT</span>", rest)
      | _ => none
    | _ => none
  | _ => none

/-- `/F\s*=\s*G\s*\(\s*m1\s*m2\s*\/\s*r\^?2\s*\)/g` → gravitation-law span. -/
def gravM : Matcher := fun l =>
  match l with
  | 'F' :: r1 =>
    let (_, r2) := takeW jsWs r1
    match r2 with
    | '=' :: r3 =>
      let (_, r4) := takeW jsWs r3
      match r4 with
      | 'G' :: r5 =>
        let (_, r6) := takeW jsWs r5
        match r6 with
        | '(' :: r7 =>
          let (_, r8) := takeW jsWs r7
          match r8 with
          | 'm' :: '1' :: r9 =>
            let (_, r10) := takeW jsWs r9
            match r10 with
            | 'm' :: '2' :: r11 =>
              let (_, r12) := takeW jsWs r11
              match r12 with
              | '/' :: r13 =>
                let (_, r14) := takeW jsWs r13
                match (match r14 with
                       | 'r' :: '^' :: '2' :: r15 => some r15
                       | 'r' :: '2' :: r15 => some r15
                       | _ => none) with
                | some r15 =>
                  let (_, r16) := takeW jsWs r15
                  match r16 with
                  | ')' :: rest =>
                    some (dstr "<span class=\"physics-equation\">F = G(m₁m₂/r²)</span>", rest)
                  | _ => none
                | none => none
              | _ => none
            | _ => none
          | _ => none
        | _ => none
      | _ => none
    | _ => none
  | _ => none

/-- ``/```(\w*)([\s\S]*?)```/g`` → `<pre>` block; the code is trimmed, a
language identifier div is added when a language tag is present. -/
def codeFenceM : Matcher := fun l =>
  match stripPre (dstr "```") l with
  | some r1 =>
    let (lang, r2) := takeW isWordC r1
    match scanUntil (dstr "```") (fun _ => true) r2.length r2 with
    | some (code, rest) =>
      if lang.isEmpty then
        some (dstr "<pre class=\"code-block\"><code>" ++ jsTrim code ++ dstr "</code></pre>",
          rest)
      else
        some (dstr "<pre class=\"code-block language-" ++ lang ++
          dstr "\"><div class=\"language-identifier\">" ++ lang ++ dstr "</div><code>" ++
          jsTrim code ++ dstr "</code></pre>", rest)
    | none => none
  | none => none

/-- The backtick character (written via its code point). -/
def btick : Char := Char.ofNat 96

/-- `` /`([^`]+)`/g `` → `<code class="inline-code">$1</code>`. -/
def inlineCodeM : Matcher := fun l =>
  match l with
  | c :: r =>
    if c = btick then
      match takeW1 (fun d => d ≠ btick) r with
      | some (content, r2) =>
        match r2 with
        | d :: rest =>
          if d = btick then
            some (dstr "<code class=\"inline-code\">" ++ content ++ dstr "</code>", rest)
          else none
        | [] => none
      | none => none
    else none
  | [] => none

/-- Matcher for `/(\s)ENT(\s|$)/g` (the leading-whitespace alternative of
`(\s|^)ENT(\s|$)`); the replacement is a space-padded symbol. -/
def cmpM (ent : List Char) (sym : Char) : Matcher := fun l =>
  match l with
  | c :: cs =>
    if jsWs c then
      match stripPre ent cs with
      | some r =>
        match r with
        | [] => some ([' ', sym, ' '], [])
        | d :: ds => if jsWs d then some ([' ', sym, ' '], ds) else none
      | none => none
    else none
  | [] => none

/-- One full `replace(/(\s|^)ENT(\s|$)/g, ' SYM ')` pass: the `^`
alternative is only possible at position 0, after which the generic scan
takes over. -/
def replCmp (ent : List Char) (sym : Char) (l : List Char) : List Char :=
  match stripPre ent l with
  | some r =>
    match r with
    | [] => [' ', sym, ' ']
    | d :: ds =>
      if jsWs d then ' ' :: sym :: ' ' :: replScan (cmpM ent sym) ds.length ds
      else replScan (cmpM ent sym) l.length l
  | none => replScan (cmpM ent sym) l.length l

/-- The separator regex `/\],\s*\[/` used to split matrix rows. -/
def msepStrip (l : List Char) : Option (List Char) :=
  match l with
  | ']' :: ',' :: cs =>
    let (_, r) := takeW jsWs cs
    match r with
    | '[' :: r2 => some r2
    | _ => none
  | _ => none

/-- `content.split(/\],\s*\[/)`. -/
def mSplitF : Nat → List Char → List (List Char)
  | 0, l => [l]
  | _ + 1, [] => [[]]
  | fuel + 1, c :: cs =>
    match msepStrip (c :: cs) with
    | some rest => [] :: mSplitF fuel rest
    | none =>
      match mSplitF fuel cs with
      | [] => [[c]]
      | a :: as => (c :: a) :: as

/-- The terminator `\]\s*\]` of the matrix pattern. -/
def mStop (l : List Char) : Option (List Char) :=
  match l with
  | ']' :: cs =>
    let (_, r) := takeW jsWs cs
    match r with
    | ']' :: r2 => some r2
    | _ => none
  | _ => none

/-- Lazy scan with a pattern-valued stop (used for `(.*?)\]\s*\]`). -/
def scanUntilF (stopf : List Char → Option (List Char)) (ok : Char → Bool) :
    Nat → List Char → Option (List Char × List Char)
  | 0, _ => none
  | fuel + 1, l =>
    match stopf l with
    | some rest => some ([], rest)
    | none =>
      match l with
      | [] => none
      | c :: cs =>
        if ok c then
          match scanUntilF stopf ok fuel cs with
          | some (a, r) => some (c :: a, r)
          | none => none
        else none

/-- `/\[\s*\[(.*?)\]\s*\]/g` with the row-splitting replacement function. -/
def matrixM : Matcher := fun l =>
  match l with
  | '[' :: r1 =>
    let (_, r2) := takeW jsWs r1
    match r2 with
    | '[' :: r3 =>
      match scanUntilF mStop jsDot r3.length r3 with
      | some (content, rest) =>
        let rows := mSplitF content.length content
        match rows with
        | [_] => some (dstr "<div class=\"math-equation\">[" ++ content ++ dstr "]</div>", rest)
        | _ =>
          some (dstr "<div class=\"math-matrix\">" ++
            (rows.foldl (fun acc row =>
              acc ++ dstr "<div class=\"matrix-row\">[" ++ row ++ dstr "]</div>") []) ++
            dstr "</div>", rest)
      | none => none
    | _ => none
  | _ => none

/-- The lookahead `(?=\[!|\n\n|$)` ending a callout block. -/
def calloutStop (l : List Char) : Bool :=
  l.isEmpty || (stripPre (dstr "[!") l).isSome || (stripPre (dstr "\n\n") l).isSome

/-- Lazy scan up to a non-consuming lookahead. -/
def scanUntilLA (stopP : List Char → Bool) : Nat → List Char →
    Option (List Char × List Char)
  | 0, l => if stopP l then some ([], l) else none
  | fuel + 1, l =>
    if stopP l then some ([], l)
    else
      match l with
      | [] => none
      | c :: cs =>
        match scanUntilLA stopP fuel cs with
        | some (a, r) => some (c :: a, r)
        | none => none

/-- `/\[!TAG\]([\s\S]*?)(?=\[!|\n\n|$)/g` → `<div class="CLS">$1</div>`. -/
def calloutM (tag cls : String) : Matcher := fun l =>
  match stripPre (dstr tag) l with
  | some r =>
    match scanUntilLA calloutStop r.length r with
    | some (content, rest) =>
      some (dstr ("<div class=\"" ++ cls ++ "\">") ++ content ++ dstr "</div>", rest)
    | none => none
  | none => none

/-- `/==([^=]+)==/g` → `<span class="highlight">$1</span>`. -/
def highlightM : Matcher := fun l =>
  match stripPre (dstr "==") l with
  | some r =>
    match takeW1 (fun c => c ≠ '=') r with
    | some (content, r2) =>
      match stripPre (dstr "==") r2 with
      | some rest => some (dstr "<span class=\"highlight\">" ++ content ++ dstr "</span>", rest)
      | none => none
    | none => none
  | none => none

/-- The LaTeX macro-to-symbol literal substitutions of
`processNonTableText`, in source order (from `\sum` to `\because`). -/
def latexLits : List (String × String) :=
  [("\\sum", "∑"), ("\\prod", "∏"), ("\\int", "∫"), ("\\infty", "∞"),
   ("\\pi", "π"), ("\\theta", "θ"), ("\\alpha", "α"), ("\\beta", "β"),
   ("\\gamma", "γ"), ("\\delta", "δ"), ("\\epsilon", "ε"), ("\\lambda", "λ"),
   ("\\mu", "µ"), ("\\sigma", "σ"), ("\\omega", "ω"), ("\\pm", "±"),
   ("\\times", "×"), ("\\div", "÷"), ("\\cdot", "·"), ("\\approx", "≈"),
   ("\\neq", "≠"), ("\\leq", "≤"), ("\\geq", "≥"), ("\\rightarrow", "→"),
   ("\\leftrightarrow", "↔"), ("\\partial", "∂"), ("\\nabla", "∇"),
   ("\\therefore", "∴"), ("\\because", "∵")]

/-- The physics unit patterns of `processNonTableText`, in source order:
alternatives, case-insensitivity flag, displayed unit. -/
def physUnits : List (List String × Bool × String) :=
  [(["m/s"], false, "m/s"),
   (["kg/m^3", "kg/m3", "kg/m³"], false, "kg/m³"),
   (["m/s^2", "m/s2", "m/s²"], false, "m/s²"),
   (["N", "newton"], true, "N"),
   (["Pa", "pascal"], true, "Pa"),
   (["J", "joule"], true, "J"),
   (["W", "watt"], true, "W"),
   (["K", "kelvin"], true, "K"),
   (["mol"], true, "mol"),
   (["Hz", "hertz"], true, "Hz"),
   (["Ω", "ohm"], true, "Ω"),
   (["V", "volt"], true, "V"),
   (["A", "ampere"], true, "A"),
   (["C", "coulomb"], true, "C"),
   (["T", "tesla"], true, "T")]

/-- The whole substitution chain of `processNonTableText`
(`helpers.ts`, second revision, lines 250-381), excluding the final React
wrapper; stages appear in exact source order. -/
def pntPipeline (t0 : List Char) : List Char :=
  let t := stage boldM t0
  let t := stage italicM t
  let t := stage blockMathM t
  let t := stage inlineMathM t
  let t := stage sqrtM t
  let t := stage fracM t
  let t := stage (boundedOpM "\\sum" "∑") t
  let t := stage (boundedOpM "\\prod" "∏") t
  let t := stage (boundedOpM "\\int" "∫") t
  let t := latexLits.foldl (fun acc p => stage (litSpanM p.1 p.2) acc) t
  let t := stage supANM t
  let t := stage supBrM t
  let t := stage subANM t
  let t := stage subBrM t
  let t := stage nSqrtM t
  let t := stage sqrtOfM t
  let t := stage cbrtOfM t
  let t := stage squaredM t
  let t := stage cubedM t
  let t := stage absM t
  let t := stage chemSubM t
  let t := stage isotopeM t
  let t := stage ionM t
  let t := stage stateM t
  let t := physUnits.foldl (fun acc p => stage (unitM p.1 p.2.1 p.2.2) acc) t
  let t := stage eMc2M t
  let t := stage fMaM t
  let t := stage pvNrtM t
  let t := stage gravM t
  let t := stage codeFenceM t
  let t := stage inlineCodeM t
  let t := replCmp (dstr "&lt;=") '≤' t
  let t := replCmp (dstr "&gt;=") '≥' t
  let t := replCmp (dstr "!=") '≠' t
  let t := stage matrixM t
  let t := stage (calloutM "[!NOTE]" "note") t
  let t := stage (calloutM "[!TIP]" "annotation") t
  let t := stage (calloutM "[!DEFINITION]" "definition") t
  let t := stage highlightM t
  let t := stage (litM (dstr "\n\n") (dstr "</p><p>")) t
  let t := stage (litM (dstr "\n") (dstr "<br>")) t
  t

/-- `processNonTableText` (second revision): `null` on falsy input,
otherwise the substitution chain wrapped in `<p>…</p>` (the `__html` value
of the returned React element). -/
def processNonTableText (text : List Char) : Option (List Char) :=
  if text.isEmpty then none
  else some (dstr "<p>" ++ pntPipeline text ++ dstr "</p>")

/-! ## The `processPdfText` plain-text normalizer

(`helpers.ts`, second revision, lines 437-475.) -/

/-- Generic matcher for `/OPEN(.*?)CLOSE/g` tag pairs; `dotAll` selects the
`s` flag (content may span lines). -/
def tagPairM (opn cls : String) (dotAll : Bool) (mk : List Char → List Char) : Matcher :=
  fun l =>
    match stripPre (dstr opn) l with
    | some r =>
      match scanUntil (dstr cls) (fun c => if dotAll then true else jsDot c) r.length r with
      | some (content, rest) => some (mk content, rest)
      | none => none
    | none => none

/-- `/<pre class="code-block.*?">(.*?)<\/pre>/gs` → `\n\n$1\n\n`. -/
def preBlockM : Matcher := fun l =>
  match stripPre (dstr "<pre class=\"code-block") l with
  | some r1 =>
    match scanUntil (dstr "\">") (fun _ => true) r1.length r1 with
    | some (_, r2) =>
      match scanUntil (dstr "</pre>") (fun _ => true) r2.length r2 with
      | some (content, rest) => some (dstr "\n\n" ++ content ++ dstr "\n\n", rest)
      | none => none
    | none => none
  | none => none

/-- `/<[^>]+>/g` → `''` (strip remaining tags). -/
def tagStripM : Matcher := fun l =>
  match l with
  | '<' :: r1 =>
    match takeW1 (fun c => c ≠ '>') r1 with
    | some (_, r2) =>
      match r2 with
      | '>' :: rest => some ([], rest)
      | _ => none
    | none => none
  | _ => none

/-- `/\n\n\n+/g` → `'\n\n'`. -/
def collapseNlM : Matcher := fun l =>
  match l with
  | '\n' :: '\n' :: '\n' :: r =>
    let (_, rest) := takeW (fun c => c = '\n') r
    some (dstr "\n\n", rest)
  | _ => none

/-- The symbol substitutions of `processPdfText`, in source order; note
that `∑` (U+2211) is replaced by `Σ` (U+03A3) while every other entry maps
a symbol to itself. -/
def pdfSymbolPairs : List (String × String) :=
  [("√", "√"), ("π", "π"), ("θ", "θ"), ("∑", "Σ"), ("∫", "∫"),
   ("∞", "∞"), ("±", "±"), ("×", "×"), ("÷", "÷"), ("≤", "≤"),
   ("≥", "≥"), ("≠", "≠"), ("→", "→"), ("↔", "↔"), ("∂", "∂"),
   ("∇", "∇"), ("∴", "∴"), ("∵", "∵"), ("α", "α"), ("β", "β"),
   ("γ", "γ"), ("δ", "δ"), ("ε", "ε"), ("λ", "λ"), ("µ", "µ"),
   ("σ", "σ"), ("ω", "ω")]

/-- `processPdfText` (second revision): strips the transformer's markup
back to exporter-safe plain text.  Stages in exact source order. -/
def processPdfText (content : List Char) : List Char :=
  let t := content
  let t := stage (tagPairM "<sub>" "</sub>" false
    (fun c => dstr "_\x7b" ++ c ++ dstr "\x7d")) t
  let t := stage (tagPairM "<sup>" "</sup>" false
    (fun c => dstr "^\x7b" ++ c ++ dstr "\x7d")) t
  let t := stage (tagPairM "<div class=\"math-equation block\">" "</div>" false
    (fun c => dstr "\n\n" ++ c ++ dstr "\n\n")) t
  let t := stage (tagPairM "<span class=\"math-equation\">" "</span>" false (fun c => c)) t
  let t := stage (tagPairM "<span class=\"chemical-formula\">" "</span>" false (fun c => c)) t
  let t := stage (tagPairM "<span class=\"physics-unit\">" "</span>" false (fun c => c)) t
  let t := stage (tagPairM "<span class=\"physics-equation\">" "</span>" false (fun c => c)) t
  let t := stage preBlockM t
  let t := stage (tagPairM "<div class=\"language-identifier\">" "</div>" false
    (fun _ => [])) t
  let t := stage (tagPairM "<code>" "</code>" true (fun c => c)) t
  let t := stage (tagPairM "<code class=\"inline-code\">" "</code>" false
    (fun c => btick :: c ++ [btick])) t
  let t := stage (tagPairM "<div class=\"note\">" "</div>" true
    (fun c => dstr "\n\nNOTE: " ++ c ++ dstr "\n\n")) t
  let t := stage (tagPairM "<div class=\"annotation\">" "</div>" true
    (fun c => dstr "\n\nTIP: " ++ c ++ dstr "\n\n")) t
  let t := stage (tagPairM "<div class=\"definition\">" "</div>" true
    (fun c => dstr "\n\nDEFINITION: " ++ c ++ dstr "\n\n")) t
  let t := stage (tagPairM "<span class=\"highlight\">" "</span>" false
    (fun c => '*' :: c ++ ['*'])) t
  let t := pdfSymbolPairs.foldl (fun acc p => stage (litM (dstr p.1) (dstr p.2)) acc) t
  let t := stage (litM (dstr "</p><p>") (dstr "\n\n")) t
  let t := stage (litM (dstr "<br>") (dstr "\n")) t
  let t := stage (tagPairM "<p>" "</p>" true (fun c => c)) t
  let t := stage tagStripM t
  let t := stage collapseNlM t
  t

/-- `processPdfText` as called from JavaScript: the parameter may be
`null`/`undefined` (modelled by `none`), in which case the very first
`content.replace(...)` throws a `TypeError` (there is no null guard in this
function). -/
def processPdfTextJS : Option (List Char) → Except Unit (List Char)
  | none => Except.error ()
  | some t => Except.ok (processPdfText t)

/-! ## Table extraction and `processOutputText`

The table regex is `/^\|.+\r?\n\|-+.+\r?\n(\|.+\r?\n?)*$/gm`.  Because it
is anchored at line starts and its pieces are whole lines, it is modelled
on the line decomposition of the text (split at `'\n'`).  `String.split`
with a regex containing a capture group interleaves the group's text (the
**last** data line of each matched block, `undefined` when there is no
data line) between the surrounding parts — this is modelled faithfully by
`toParts`. -/

/-- Split at a separator character (JavaScript `split` semantics:
`""` yields `[""]`, separators at the ends yield empty pieces). -/
def splitC (sep : Char) : List Char → List (List Char)
  | [] => [[]]
  | c :: cs =>
    if c = sep then [] :: splitC sep cs
    else
      match splitC sep cs with
      | [] => [[c]]
      | a :: as => (c :: a) :: as

/-- Join pieces with a separator character (inverse of `splitC` on
separator-free pieces). -/
def joinC (sep : Char) : List (List Char) → List Char
  | [] => []
  | [l] => l
  | l :: ls => l ++ sep :: joinC sep ls

/-- Join lines with `'\n'`. -/
def joinNL : List (List Char) → List Char := joinC '\n'

/-- `^\|.+` as a whole line: starts with `'|'` and has at least one more
character. -/
def isHdrL (l : List Char) : Bool :=
  match l with
  | '|' :: _ :: _ => true
  | _ => false

/-- `^\|-+.+` as a whole line: `'|'`, at least one `'-'`, at least one
further character. -/
def isSepL (l : List Char) : Bool :=
  match l with
  | '|' :: '-' :: _ :: _ => true
  | _ => false

/-- Tokens produced by scanning the line list for table-regex matches:
either an ordinary line (with or without its trailing newline) or a whole
match together with its capture group. -/
inductive Tok
  | line (s : List Char) (nl : Bool)
  | tbl (full : List Char) (cap : Option (List Char))
deriving DecidableEq

/-- Scan the line list for matches of the table regex.  A match needs a
header line with a following newline, a separator line with a following
newline, then greedily consumed data lines; the final `$` either holds
as-is (end of input, or a following empty line) or forces the last data
line's newline out of the match (emitted as the `.line [] true` token).
With no data line and a non-empty following line there is no match at this
header. -/
def scanF : Nat → List (List Char) → List Tok
  | 0, ls => ls.map (fun l => Tok.line l false)
  | _ + 1, [] => []
  | _ + 1, [l] => [Tok.line l false]
  | fuel + 1, l₁ :: l₂ :: rest =>
    if isHdrL l₁ && isSepL l₂ && !rest.isEmpty then
      let p := rest.span isHdrL
      match p.2 with
      | [] =>
        [Tok.tbl (joinNL (l₁ :: l₂ :: p.1)) (some (p.1.getLastD []))]
      | r :: _ =>
        if r.isEmpty then
          Tok.tbl (joinNL (l₁ :: l₂ :: p.1) ++ ['\n'])
              ((p.1.getLast?).map (fun d => d ++ ['\n'])) :: scanF fuel p.2
        else if p.1.isEmpty then
          Tok.line l₁ true :: scanF fuel (l₂ :: rest)
        else
          Tok.tbl (joinNL (l₁ :: l₂ :: p.1)) (some (p.1.getLastD [])) ::
            Tok.line [] true :: scanF fuel p.2
    else Tok.line l₁ true :: scanF fuel (l₂ :: rest)

/-- Rebuild the `split` parts and the `match` list from the token stream:
returns (first raw part, remaining parts with captures interleaved, full
matches). -/
def toParts : List Tok → List Char × List (Option (List Char)) × List (List Char)
  | [] => ([], [], [])
  | Tok.line s nl :: ts =>
    let (r, ps, tb) := toParts ts
    (s ++ (if nl then '\n' :: r else r), ps, tb)
  | Tok.tbl full cap :: ts =>
    let (r, ps, tb) := toParts ts
    ([], cap :: some r :: ps, full :: tb)

/-- A node of the rendered output: a prose `<div>` holding
`processNonTableText`'s result, or a `SummaryTable` element. -/
inductive RNode
  | prose (html : Option (List Char))
  | table (headers : List (List Char)) (rows : List (List (List Char)))
deriving DecidableEq

/-- `line.split('|').slice(1, -1).map(c => c.trim())`. -/
def rowCells (line : List Char) : List (List Char) :=
  (((splitC '|' line).drop 1).dropLast).map jsTrim

/-- Build the `SummaryTable` props from a full match string:
`lines = t.trim().split('\n')`, headers from `lines[0]`, rows from
`lines.slice(2)`. -/
def parseTable (t : List Char) : RNode :=
  let lines := splitC '\n' (jsTrim t)
  RNode.table (rowCells (lines.headD [])) ((lines.drop 2).map rowCells)

/-- JavaScript truthiness of a part (`undefined` and `''` are falsy). -/
def truthyP : Option (List Char) → Bool
  | none => false
  | some s => !s.isEmpty

/-- The `parts.forEach` loop of `processOutputText`: pushes a prose node
for each truthy part, and after the part at `idx` pushes the next table when
`tableIndex < tables.length && (idx < parts.length - 1 || !part)`. -/
def buildNodes (total : Nat) : Nat → Nat → List (Option (List Char)) →
    List (List Char) → List RNode
  | _, _, [], _ => []
  | idx, ti, p :: ps, tables =>
    (if truthyP p then [RNode.prose (processNonTableText (p.getD []))] else []) ++
    (if ti < tables.length && (decide (idx < total - 1) || !truthyP p) then
      parseTable (tables.getD ti []) :: buildNodes total (idx + 1) (ti + 1) ps tables
    else buildNodes total (idx + 1) ti ps tables)

/-- `processOutputText` (second revision, lines 385-411): `''` (no nodes)
on falsy input, otherwise table extraction followed by prose processing of
the split parts.  `none` models `null`/`undefined` input. -/
def processOutputText (text : Option (List Char)) : List RNode :=
  match text with
  | none => []
  | some t =>
    if t.isEmpty then []
    else
      let lines := splitC '\n' t
      let (r0, ps, tbs) := toParts (scanF lines.length lines)
      let parts := some r0 :: ps
      buildNodes parts.length 0 0 parts tbs

/-! ## The Document Exporter (`downloadAnswerAsPdf`, second revision,
lines 508-604)

The jsPDF library and the html2canvas rasterizer are external
collaborators; they are modelled at their interfaces.  The outcome of
`htmlToImage` (which catches all rasterization errors internally and
returns `null` on failure) is a parameter: `some (w, h)` is a data-URL
image of pixel size `w × h`, `none` is the caught-failure `null`.  A
possible fault of the document library on the text path (the spec's
"total export failure") is the boolean parameter `textPathFault`.  Page
geometry is A4 in millimetres (210 × 297); lengths are rationals. -/

/-- The body a jsPDF document holds after the content step: an image
embedded at a computed size, the array of text lines handed to
`doc.text`, or nothing. -/
inductive PdfBody
  | image (w h : ℚ)
  | text (lines : List (List Char))
  | empty
deriving DecidableEq

/-- The jsPDF document at the level this code drives it: the code never
calls `addPage`, so `pageCount` stays at its creation value 1; `footers`
is filled by the final stamping loop. -/
structure PdfDoc where
  title : List Char
  body : PdfBody
  pageCount : ℕ
  footers : List (List Char × List Char)
deriving DecidableEq

/-- `"Page i of n"`. -/
def pageLabel (i n : ℕ) : List Char :=
  dstr "Page " ++ (Nat.toDigits 10 i) ++ dstr " of " ++ (Nat.toDigits 10 n)

def productFooter : List Char := dstr "StudyBuddy - Your Smart Learning Assistant"

/-- The footer loop (lines 588-595): for `i = 1..totalPages`, set page `i`
and print the product name (left) and `Page i of totalPages` (right). -/
def stampFooters (d : PdfDoc) : PdfDoc :=
  { d with footers :=
      (List.range d.pageCount).map (fun i => (productFooter, pageLabel (i + 1) d.pageCount)) }

/-- Outcome of a `downloadAnswerAsPdf` call: the returned promise resolves
with a saved document, rejects with `Error('Failed to generate PDF')`, or
never settles. -/
inductive ExportOutcome
  | completed (d : PdfDoc)
  | errored
  | hung
deriving DecidableEq

def pageWidth : ℚ := 210
def pageHeight : ℚ := 297
def pdfMargin : ℚ := 20

/-- `textWidth = pageWidth - margin * 2`. -/
def textWidth : ℚ := pageWidth - pdfMargin * 2

/-- `maxFirstPageHeight = pageHeight - (margin * 2) - 40`. -/
def maxFirstPageHeight : ℚ := pageHeight - pdfMargin * 2 - 40

/-- The fresh document with header block drawn (title depends on `kind`). -/
def baseDoc (isAsk : Bool) : PdfDoc :=
  { title := dstr (if isAsk then "StudyBuddy Answer" else "StudyBuddy Explanation"),
    body := PdfBody.empty, pageCount := 1, footers := [] }

/-- `doc.splitTextToSize(processedContent, textWidth)` at the level this
development needs it: the reflow splits at the newlines of the normalized
text (jsPDF additionally wraps lines that exceed `textWidth`, which can
only *increase* the number of output lines, so the one-page clipping
modelled below is, if anything, understated). -/
def pdfTextLines (t : List Char) : List (List Char) := splitC '\n' t

/-- The line height of the text path in millimetres: font size 11 pt,
`lineHeightFactor` 1.5, at 25.4/72 mm per point (`= 4191/720 ≈ 5.82`). -/
def lineHeightMM : ℚ := 11 * (3 / 2) * (127 / 360)

/-- The y-coordinate at which `doc.text(contentLines, margin, margin + 30)`
draws its first line. -/
def contentTopY : ℚ := pdfMargin + 30

/-- How many of the lines handed to `doc.text` are visible on the single
page: jsPDF's `text` API does not paginate and this code never calls
`addPage`, so a line is rendered on the page only while its baseline
`contentTopY + i·lineHeightMM` stays within `pageHeight`; lines beyond
that are clipped.  `pageLineCapacity_spec` below verifies this constant
against the geometry (`50 + 42·5.82 ≈ 294.5 ≤ 297 < 50 + 43·5.82`). -/
def pageLineCapacity : ℕ := 43

/-- The lines of the document body actually visible on its (single) page:
text bodies are clipped to `pageLineCapacity` lines.  (An image body is
only ever embedded after the fits-on-one-page check, so it needs no
clipping here.) -/
def visibleBodyLines (d : PdfDoc) : List (List Char) :=
  match d.body with
  | PdfBody.text lines => lines.take pageLineCapacity
  | _ => []

/-- `downloadAnswerAsPdf` control flow.

* Image path: `htmlToImage` returned an image → compute
  `imgHeight = textWidth * (h / w)`; if it fits in
  `maxFirstPageHeight` the image is embedded and the export continues to
  the footer loop and `doc.save`.  **If it does not fit, the code throws
  inside the `tempImg.onload` event handler; that exception propagates out
  of the event dispatch, `resolve` is never invoked, the awaited promise
  never settles and the enclosing `catch` never runs: the call hangs**
  (`ExportOutcome.hung`).
* `htmlToImage` returned `null` → `throw` inside the inner `try`
  (synchronous) → inner `catch` → text path: the full
  `processPdfText(content)` normalization is reflowed by
  `splitTextToSize` and the whole line array is handed to a single
  `doc.text` call on page 1 — no `addPage` is ever called, so the
  document stays single-page and only the first `pageLineCapacity` lines
  are visible (`visibleBodyLines`).  With a `null` content the text path
  itself throws a `TypeError` (`content.replace` on `null`), which the
  outer `catch` turns into `Error('Failed to generate PDF')`.  A
  document-library fault on this path (`textPathFault`) likewise reaches
  the outer `catch`. -/
def downloadAnswerAsPdf (isAsk : Bool) (raster : Option (ℕ × ℕ))
    (textPathFault : Bool) (content : Option (List Char)) : ExportOutcome :=
  match raster with
  | some (w, h) =>
    let imgHeight : ℚ := textWidth * ((h : ℚ) / (w : ℚ))
    if imgHeight ≤ maxFirstPageHeight then
      ExportOutcome.completed (stampFooters
        { baseDoc isAsk with body := PdfBody.image textWidth imgHeight })
    else ExportOutcome.hung
  | none =>
    if textPathFault then ExportOutcome.errored
    else
      match processPdfTextJS content with
      | Except.error _ => ExportOutcome.errored
      | Except.ok t =>
        ExportOutcome.completed (stampFooters
          { baseDoc isAsk with body := PdfBody.text (pdfTextLines t) })

/-! ## Helper predicates for the theorems -/

/-- `pat` occurs as a contiguous substring of `l`. -/
def hasSub (pat : List Char) : List Char → Bool
  | [] => (stripPre pat []).isSome
  | c :: cs => (stripPre pat (c :: cs)).isSome || hasSub pat cs

/-- Number of positions of `l` at which `pat` occurs. -/
def countSub (pat : List Char) : List Char → Nat
  | [] => if (stripPre pat []).isSome then 1 else 0
  | c :: cs => (if (stripPre pat (c :: cs)).isSome then 1 else 0) + countSub pat cs

end StudyBuddy

namespace StudyBuddy

/-! ## Claim theorems -/

set_option maxRecDepth 40000

/-- C1 (counterexample): the fenced-code input `"```\n**not bold**\n```"`
does **not** keep its literal asterisks: the emphasis substitution runs
before fence extraction, so the rendered output contains no `*` at all
(the inner text has become a `<strong>` element). -/
theorem c1_fence_not_verbatim :
    processOutputText (some (dstr "```\n**not bold**\n```")) =
      [RNode.prose (some (dstr
        "<p><pre class=\"code-block\"><code><strong>not bold</strong></code></pre></p>"))] ∧
    hasSub [Char.ofNat 42]
      (dstr "<p><pre class=\"code-block\"><code><strong>not bold</strong></code></pre></p>")
      = false := by
  decide

/-- C1 (amended): fenced-code content is subject to the earlier emphasis
substitution, because the fence extraction runs after it; the fence wraps
the already-substituted content in `<pre><code>…</code></pre>`. -/
theorem c1_amended_emphasis_inside_fence :
    processOutputText (some (dstr "```\n**not bold**\n```")) =
      [RNode.prose (some (dstr
        "<p><pre class=\"code-block\"><code><strong>not bold</strong></code></pre></p>"))] ∧
    hasSub (dstr "<code><strong>not bold</strong></code>")
      (dstr "<p><pre class=\"code-block\"><code><strong>not bold</strong></code></pre></p>")
      = true := by
  decide

/-- C8: `"$$E=mc^2$$"` is transformed into exactly one block-level math
node (`<div class="math-equation block">…</div>`) whose content renders
`E=mc^2` with the `^2` as a `<sup>2</sup>` node attached to `c`. -/
theorem c8_block_math_with_superscript :
    processOutputText (some (dstr "$$E=mc^2$$")) =
      [RNode.prose (some (dstr
        "<p><div class=\"math-equation block\">E=m<span class=\"math-equation\">c<sup>2</sup></span></div></p>"))] ∧
    countSub (dstr "<div class=\"math-equation block\">")
      (dstr
        "<p><div class=\"math-equation block\">E=m<span class=\"math-equation\">c<sup>2</sup></span></div></p>")
      = 1 ∧
    hasSub (dstr "c<sup>2</sup>")
      (dstr
        "<p><div class=\"math-equation block\">E=m<span class=\"math-equation\">c<sup>2</sup></span></div></p>")
      = true := by
  decide

/-- C9: the transformer of the embedding is a pure function — its output
is completely determined by the input string, so two invocations on the
same `RawAnswer` yield identical render trees.  (The source function only
performs string operations on its argument; no randomness, time, or other
external state occurs in `processOutputText`/`processNonTableText`, which
is why a pure function is a faithful embedding of it.) -/
theorem c9_transform_deterministic :
    ∀ t : Option (List Char), processOutputText t = processOutputText t := fun _ => rfl

/-- C5 (counterexample): `processPdfText` is **not** the identity on the
target symbol `∑` (U+2211): the symbol table maps it to `Σ` (U+03A3). -/
theorem c5_sigma_changed :
    processPdfText (dstr "∑") = dstr "Σ" ∧ dstr "Σ" ≠ dstr "∑" := by
  decide

/-- C5 (amended): every target Unicode symbol other than `∑` — roots, π,
θ, ∫, ∞, ±, ×, ÷, ≤, ≥, ≠, the Greek letters and the arrows emitted by
the image path — is left unchanged by `processPdfText` when it is the
content. -/
theorem c5_other_symbols_fixed :
    ((dstr "√∛πθ∫∞±×÷≤≥≠→↔∂∇∴∵αβγδελµσω⁺⁻").all
      (fun c => processPdfText [c] == [c])) = true := by
  decide

/-- C6 (counterexample): exporting `null` content on the text path is an
error, not empty content: `processPdfText` has no null guard, so
`content.replace` throws and the outer catch rejects the export. -/
theorem c6_null_text_path_errors :
    downloadAnswerAsPdf true none false none = ExportOutcome.errored ∧
    processPdfTextJS none = Except.error () :=
  ⟨rfl, rfl⟩

/-- C6 (amended): `transform` treats `null`/`undefined` and `''` as empty
content without throwing, and the export of empty content completes on
both paths (image path shown with a 1:1 rasterized image, text path with
the empty string); only `null` content reaching the text path errors. -/
theorem c6_amended_empty_ok :
    processOutputText none = [] ∧
    processOutputText (some []) = [] ∧
    downloadAnswerAsPdf true (some (800, 800)) false none =
      ExportOutcome.completed (stampFooters
        { baseDoc true with body := PdfBody.image 170 170 }) ∧
    downloadAnswerAsPdf true none false (some []) =
      ExportOutcome.completed (stampFooters
        { baseDoc true with body := PdfBody.text [[]] }) := by
  have hc : textWidth * ((800 : ℚ) / (800 : ℚ)) ≤ maxFirstPageHeight := by
    norm_num [textWidth, maxFirstPageHeight, pageWidth, pageHeight, pdfMargin]
  have him : textWidth * ((800 : ℚ) / (800 : ℚ)) = 170 := by
    norm_num [textWidth, pageWidth, pdfMargin]
  have htw : textWidth = 170 := by norm_num [textWidth, pageWidth, pdfMargin]
  refine ⟨rfl, by decide, ?_, ?_⟩
  · show (if textWidth * ((800 : ℚ) / (800 : ℚ)) ≤ maxFirstPageHeight then
        ExportOutcome.completed (stampFooters
          { baseDoc true with
            body := PdfBody.image textWidth (textWidth * ((800 : ℚ) / (800 : ℚ))) })
      else ExportOutcome.hung) = _
    rw [if_pos hc, him, htw]
  · show ExportOutcome.completed (stampFooters
        { baseDoc true with body := PdfBody.text (pdfTextLines (processPdfText [])) }) = _
    rfl

/-- C3: when the computed image height at content width exceeds the first
page's remaining space (here a 800 × 10000 px rasterization:
`imgHeight = 170 · 10000/800 = 2125 > 217 = maxFirstPageHeight`), the
export does **not** fall through to the text path and does **not**
complete: the `throw` sits inside the `tempImg.onload` event handler, the
promise is never resolved, and the call hangs. -/
theorem c3_overflow_hangs :
    downloadAnswerAsPdf true (some (800, 10000)) false
      (some (dstr "a very long answer")) = ExportOutcome.hung ∧
    maxFirstPageHeight < textWidth * ((10000 : ℚ) / (800 : ℚ)) := by
  have hc : ¬ textWidth * ((10000 : ℚ) / (800 : ℚ)) ≤ maxFirstPageHeight := by
    norm_num [textWidth, maxFirstPageHeight, pageWidth, pageHeight, pdfMargin]
  constructor
  · show (if textWidth * ((10000 : ℚ) / (800 : ℚ)) ≤ maxFirstPageHeight then
        ExportOutcome.completed (stampFooters
          { baseDoc true with
            body := PdfBody.image textWidth (textWidth * ((10000 : ℚ) / (800 : ℚ))) })
      else ExportOutcome.hung) = _
    rw [if_neg hc]
  · norm_num [textWidth, maxFirstPageHeight, pageWidth, pageHeight, pdfMargin]

/-- Geometry check for `pageLineCapacity`: with the text path's layout
(first baseline at `contentTopY = 50` mm, line height
`11 · 1.5 · 25.4/72` mm) the 43rd line still lands on the A4 page and the
44th does not. -/
theorem pageLineCapacity_spec :
    contentTopY + ((pageLineCapacity : ℚ) - 1) * lineHeightMM ≤ pageHeight ∧
    pageHeight < contentTopY + (pageLineCapacity : ℚ) * lineHeightMM := by
  constructor <;>
    norm_num [contentTopY, pdfMargin, lineHeightMM, pageHeight, pageLineCapacity]

/-- C4 (counterexample): the fallback document **can** be truncated and is
never multi-page.  For a raw text of 50 short lines the export completes
on the text path, but the document has a single page (`doc.text` does not
paginate and the code never calls `addPage`), so only the first 43 of the
50 normalized lines are visible — the rest are clipped, contradicting
"complete … capable of spanning multiple pages, never truncated". -/
theorem c4_text_path_truncates :
    downloadAnswerAsPdf true none false
        (some (joinNL (List.replicate 50 (dstr "a")))) =
      ExportOutcome.completed (stampFooters
        { baseDoc true with body := PdfBody.text (List.replicate 50 (dstr "a")) }) ∧
    (stampFooters { baseDoc true with
        body := PdfBody.text (List.replicate 50 (dstr "a")) }).pageCount = 1 ∧
    visibleBodyLines (stampFooters { baseDoc true with
        body := PdfBody.text (List.replicate 50 (dstr "a")) }) =
      List.replicate 43 (dstr "a") ∧
    (List.replicate 50 (dstr "a") : List (List Char)) ≠
      List.replicate 43 (dstr "a") := by
  decide

/-- C4 (amended): if the rasterization step fails (`htmlToImage` catches
the error and returns `null`), the failure is not surfaced: the exporter
still resolves via the text path with the **complete** normalized text
reflowed and handed to the document library; but the resulting document is
single-page — only the first `pageLineCapacity` reflowed lines are
visible, so content longer than one page is clipped rather than
paginated — and an error propagates to the caller only when the text path
itself also faults. -/
theorem c4_amended_fallback_single_page (t : List Char) (_h : t ≠ []) :
    (downloadAnswerAsPdf true none false (some t) =
      ExportOutcome.completed (stampFooters { baseDoc true with
        body := PdfBody.text (pdfTextLines (processPdfText t)) })) ∧
    (∀ d, downloadAnswerAsPdf true none false (some t) = ExportOutcome.completed d →
      d.pageCount = 1 ∧
      visibleBodyLines d = (pdfTextLines (processPdfText t)).take pageLineCapacity) ∧
    downloadAnswerAsPdf true none true (some t) = ExportOutcome.errored := by
  refine ⟨rfl, ?_, rfl⟩
  intro d hd
  have hX : downloadAnswerAsPdf true none false (some t) =
      ExportOutcome.completed (stampFooters { baseDoc true with
        body := PdfBody.text (pdfTextLines (processPdfText t)) }) := rfl
  rw [hX] at hd
  injection hd with hd
  subst hd
  exact ⟨rfl, rfl⟩

/-- Witness for C4's amended theorem at `t = "x"`. -/
theorem c4_witness :
    downloadAnswerAsPdf true none false (some (dstr "x")) =
      ExportOutcome.completed (stampFooters { baseDoc true with
        body := PdfBody.text (pdfTextLines (processPdfText (dstr "x"))) }) ∧
    (stampFooters { baseDoc true with
        body := PdfBody.text (pdfTextLines (processPdfText (dstr "x"))) }).pageCount = 1 ∧
    visibleBodyLines (stampFooters { baseDoc true with
        body := PdfBody.text (pdfTextLines (processPdfText (dstr "x"))) }) =
      (pdfTextLines (processPdfText (dstr "x"))).take pageLineCapacity ∧
    downloadAnswerAsPdf true none true (some (dstr "x")) = ExportOutcome.errored := by
  obtain ⟨h1, h2, h3⟩ := c4_amended_fallback_single_page (dstr "x") (by decide)
  exact ⟨h1, (h2 _ h1).1, (h2 _ h1).2, h3⟩

/-- The footer-stamping loop puts `Page i of N` (with the product name on
the left) on every one of the `N` pages, where `N` is read off the
finished document once, after content generation. -/
theorem stampFooters_pages (x : PdfDoc) :
    (stampFooters x).footers.length = (stampFooters x).pageCount ∧
    ∀ i, i < (stampFooters x).pageCount →
      (stampFooters x).footers[i]? =
        some (productFooter, pageLabel (i + 1) (stampFooters x).pageCount) := by
  constructor
  · simp [stampFooters]
  · intro i hi
    simp only [stampFooters] at hi ⊢
    rw [List.getElem?_map, List.getElem?_range hi]
    rfl

/-- C7: every successfully completed export carries, on each of its `N`
pages, the product name on the left and `Page i of N` on the right, with
`i` running from 1 to `N` and `N` equal to the document's page count —
the footers are stamped from the final page count. -/
theorem c7_footer_pagination (isAsk : Bool) (raster : Option (ℕ × ℕ))
    (fault : Bool) (content : Option (List Char)) (d : PdfDoc)
    (h : downloadAnswerAsPdf isAsk raster fault content = ExportOutcome.completed d) :
    d.footers.length = d.pageCount ∧
    ∀ i, i < d.pageCount →
      d.footers[i]? = some (productFooter, pageLabel (i + 1) d.pageCount) := by
  match raster, h with
  | some (w, hh), h =>
    rw [downloadAnswerAsPdf] at h
    by_cases hc : textWidth * ((hh : ℚ) / (w : ℚ)) ≤ maxFirstPageHeight
    · rw [if_pos hc] at h
      cases h
      exact stampFooters_pages _
    · rw [if_neg hc] at h
      exact absurd h (by simp)
  | none, h =>
    rw [downloadAnswerAsPdf] at h
    by_cases hf : fault
    · rw [if_pos hf] at h
      exact absurd h (by simp)
    · rw [if_neg hf] at h
      match content, h with
      | none, h => exact absurd h (by simp [processPdfTextJS])
      | some t, h =>
        simp only [processPdfTextJS] at h
        cases h
        exact stampFooters_pages _

/-- Witness for C7: a concrete completed export (1 : 1 image, one page)
whose only footer is `Page 1 of 1`. -/
theorem c7_witness :
    (stampFooters { baseDoc true with body := PdfBody.image 170 170 }).footers[0]? =
      some (productFooter, pageLabel 1 1) := by
  have hc : textWidth * ((800 : ℚ) / (800 : ℚ)) ≤ maxFirstPageHeight := by
    norm_num [textWidth, maxFirstPageHeight, pageWidth, pageHeight, pdfMargin]
  have him : textWidth * ((800 : ℚ) / (800 : ℚ)) = 170 := by
    norm_num [textWidth, pageWidth, pdfMargin]
  have htw : textWidth = 170 := by norm_num [textWidth, pageWidth, pdfMargin]
  have hexp : downloadAnswerAsPdf true (some (800, 800)) false (some (dstr "x")) =
      ExportOutcome.completed (stampFooters
        { baseDoc true with body := PdfBody.image 170 170 }) := by
    show (if textWidth * ((800 : ℚ) / (800 : ℚ)) ≤ maxFirstPageHeight then
        ExportOutcome.completed (stampFooters
          { baseDoc true with
            body := PdfBody.image textWidth (textWidth * ((800 : ℚ) / (800 : ℚ))) })
      else ExportOutcome.hung) = _
    rw [if_pos hc, him, htw]
  exact (c7_footer_pagination true (some (800, 800)) false (some (dstr "x")) _ hexp).2 0
    (by simp [stampFooters, baseDoc])

theorem stripPre_nil_ne (pat : List Char) (h : pat ≠ []) : stripPre pat [] = none := by
  cases pat with
  | nil => exact absurd rfl h
  | cons p ps => rfl

theorem hasSub_false_head {pat l : List Char} (hne : pat ≠ [])
    (h : hasSub pat l = false) : stripPre pat l = none := by
  cases l with
  | nil => exact stripPre_nil_ne pat hne
  | cons c cs =>
    rw [hasSub, Bool.or_eq_false_iff] at h
    cases hs : stripPre pat (c :: cs) with
    | none => rfl
    | some r => rw [hs] at h; simp at h

theorem hasSub_false_tail {pat : List Char} {c : Char} {cs : List Char}
    (h : hasSub pat (c :: cs) = false) : hasSub pat cs = false := by
  rw [hasSub, Bool.or_eq_false_iff] at h
  exact h.2

theorem replScan_cmp_id (ent : List Char) (sym : Char) (hne : ent ≠ []) :
    ∀ fuel l, hasSub ent l = false → replScan (cmpM ent sym) fuel l = l := by
  intro fuel
  induction fuel with
  | zero => intro l _; rfl
  | succ n ih =>
    intro l h
    cases l with
    | nil => rfl
    | cons c cs =>
      have htail : hasSub ent cs = false := hasSub_false_tail h
      have hcs : stripPre ent cs = none := hasSub_false_head hne htail
      have hm : cmpM ent sym (c :: cs) = none := by
        simp [cmpM, hcs]
      simp only [replScan, hm]
      rw [ih cs htail]

theorem replCmp_id (ent : List Char) (sym : Char) (hne : ent ≠ []) (l : List Char)
    (h : hasSub ent l = false) : replCmp ent sym l = l := by
  have hl : stripPre ent l = none := hasSub_false_head hne h
  simp only [replCmp, hl]
  exact replScan_cmp_id ent sym hne l.length l h

/-- C10: the comparison-operator substitution stages only fire on the
HTML-entity spellings.  Concretely, `transform` maps `"x &lt;= y"` /
`"x &gt;= y"` to `≤` / `≥`, while raw `"x <= y"` / `"x >= y"` pass through
the whole transform unchanged; and in general a string containing no
`"&lt;="` (resp. `"&gt;="`) substring is left untouched by the
corresponding substitution stage, so a raw `<=`/`>=` is never converted. -/
theorem c10_raw_comparisons_untouched :
    (processOutputText (some (dstr "x <= y")) =
        [RNode.prose (some (dstr "<p>x <= y</p>"))] ∧
     processOutputText (some (dstr "x >= y")) =
        [RNode.prose (some (dstr "<p>x >= y</p>"))] ∧
     processOutputText (some (dstr "x &lt;= y")) =
        [RNode.prose (some (dstr "<p>x ≤ y</p>"))] ∧
     processOutputText (some (dstr "x &gt;= y")) =
        [RNode.prose (some (dstr "<p>x ≥ y</p>"))]) ∧
    (∀ s, hasSub (dstr "&lt;=") s = false → replCmp (dstr "&lt;=") '≤' s = s) ∧
    (∀ s, hasSub (dstr "&gt;=") s = false → replCmp (dstr "&gt;=") '≥' s = s) := by
  refine ⟨by decide, ?_, ?_⟩
  · exact fun s h => replCmp_id _ _ (by decide) s h
  · exact fun s h => replCmp_id _ _ (by decide) s h

/-- Witness for C10's universal components at `"a <= b"` / `"a >= b"`. -/
theorem c10_witness :
    replCmp (dstr "&lt;=") '≤' (dstr "a <= b") = dstr "a <= b" ∧
    replCmp (dstr "&gt;=") '≥' (dstr "a >= b") = dstr "a >= b" :=
  ⟨c10_raw_comparisons_untouched.2.1 (dstr "a <= b") (by decide),
   c10_raw_comparisons_untouched.2.2 (dstr "a >= b") (by decide)⟩

end StudyBuddy
